import Mathlib

/-!
Verification of the ANSI escape-sequence encoder (`src/ansi/root.py`).

The module is a catalog of pure string-building functions. We embed it
shallowly: each Python function becomes a Lean definition over `String`,
Python `int` becomes `Int`, and Python's builtin `str` on integers becomes
`pyStr` below (minimal decimal rendering, `-`-prefixed for negatives).
Default parameter values are embedded with Lean optional parameters.
-/

namespace Ansi

/-- Fuel-indexed helper producing the decimal digit characters of `n`,
most significant first; returns `[]` once `n = 0`.  The fuel argument only
makes the recursion structural: `fuel ≥ n` is enough fuel. -/
def natDigitsAux : Nat → Nat → List Char
  | 0, _ => []
  | fuel + 1, n =>
    if n = 0 then [] else natDigitsAux fuel (n / 10) ++ [Char.ofNat (48 + n % 10)]

/-- Decimal rendering of a natural number, as produced by Python `str`. -/
def natStr (n : Nat) : String :=
  if n = 0 then "0" else String.mk (natDigitsAux n n)

/-- Embedding of Python's builtin `str` on `int`: minimal decimal rendering,
with a single leading `-` for negative values. -/
def pyStr (i : Int) : String :=
  if i < 0 then "-" ++ natStr i.natAbs else natStr i.toNat

/-- Source constant `ESC` (`root.py` line 13): the escape control character. -/
def ESC : String := "\x1b"

/-- Source constant `CSI` (`root.py` line 14): Control Sequence Introducer. -/
def CSI : String := ESC ++ "["

/-- Source constant `OSC` (`root.py` line 15): Operating System Command. -/
def OSC : String := ESC ++ "]"

/-- Source `reverse_index` (`root.py` line 19). -/
def reverse_index : String := ESC ++ "M"

/-- Source `save_cursor` (`root.py` line 29). -/
def save_cursor : String := ESC ++ "7"

/-- Source `restore_cursor` (`root.py` line 38). -/
def restore_cursor : String := ESC ++ "8"

/-- Source `cursor_up` (`root.py` line 48). -/
def cursor_up (n : Int := 1) : String := CSI ++ pyStr n ++ "A"

/-- Source `cursor_down` (`root.py` line 57). -/
def cursor_down (n : Int := 1) : String := CSI ++ pyStr n ++ "B"

/-- Source `cursor_forward` (`root.py` line 66). -/
def cursor_forward (n : Int := 1) : String := CSI ++ pyStr n ++ "C"

/-- Source `cursor_backward` (`root.py` line 75). -/
def cursor_backward (n : Int := 1) : String := CSI ++ pyStr n ++ "D"

/-- Source `cursos_next_line` (`root.py` line 84; the name's typo is the
source's).  Note the source returns terminator `D`, not `E`. -/
def cursos_next_line (n : Int := 1) : String := CSI ++ pyStr n ++ "D"

/-- Source `cursor_prev_line` (`root.py` line 93).  Note the source returns
terminator `D`, not `F`. -/
def cursor_prev_line (n : Int := 1) : String := CSI ++ pyStr n ++ "D"

/-- Source `cursor_horz_abs` (`root.py` line 102). -/
def cursor_horz_abs (n : Int := 1) : String := CSI ++ pyStr n ++ "G"

/-- Source `cursor_vert_abs` (`root.py` line 111). -/
def cursor_vert_abs (n : Int := 1) : String := CSI ++ pyStr n ++ "d"

/-- Source `cursor_pos` (`root.py` line 120). -/
def cursor_pos (y : Int := 1) (x : Int := 1) : String :=
  CSI ++ pyStr y ++ ";" ++ pyStr x ++ "H"

/-- Source `cursor_hvp` (`root.py` line 130).  The source literally ends the
sequence with the byte `m` (not the documented HVP terminator `f`). -/
def cursor_hvp (y : Int := 1) (x : Int := 1) : String :=
  CSI ++ pyStr y ++ ";" ++ pyStr x ++ "m"

/-- Source `blink_on` (`root.py` line 142). -/
def blink_on : String := CSI ++ "?12h"

/-- Source `blink_off` (`root.py` line 151). -/
def blink_off : String := CSI ++ "?12l"

/-- Source `show_cursor` (`root.py` line 160). -/
def show_cursor : String := CSI ++ "?25h"

/-- Source `hide_cursor` (`root.py` line 169). -/
def hide_cursor : String := CSI ++ "?25l"

/-- Source `decscusr` (`root.py` line 179): general cursor-shape form. -/
def decscusr (n : Int) : String := CSI ++ pyStr n ++ " q"

/-- Source `user_shape` (`root.py` line 183). -/
def user_shape : String := decscusr 0

/-- Source `blinking_block` (`root.py` line 192). -/
def blinking_block : String := decscusr 1

/-- Source `steady_block` (`root.py` line 201). -/
def steady_block : String := decscusr 2

/-- Source `blinking_underline` (`root.py` line 210). -/
def blinking_underline : String := decscusr 3

/-- Source `steady_underline` (`root.py` line 219). -/
def steady_underline : String := decscusr 4

/-- Source `blinking_bar` (`root.py` line 228). -/
def blinking_bar : String := decscusr 5

/-- Source `steady_bar` (`root.py` line 237). -/
def steady_bar : String := decscusr 6

/-- Source `scroll_up` (`root.py` line 247). -/
def scroll_up (n : Int := 1) : String := CSI ++ pyStr n ++ "S"

/-- Source `scroll_down` (`root.py` line 257). -/
def scroll_down (n : Int := 1) : String := CSI ++ pyStr n ++ "T"

/-- Source `insert_character` (`root.py` line 268). -/
def insert_character (n : Int := 1) : String := CSI ++ pyStr n ++ "@"

/-- Source `delete_character` (`root.py` line 278). -/
def delete_character (n : Int := 1) : String := CSI ++ pyStr n ++ "P"

/-- Source `erase_character` (`root.py` line 288). -/
def erase_character (n : Int := 1) : String := CSI ++ pyStr n ++ "X"

/-- Source `insert_line` (`root.py` line 298). -/
def insert_line (n : Int := 1) : String := CSI ++ pyStr n ++ "L"

/-- Source `delete_line` (`root.py` line 308). -/
def delete_line (n : Int := 1) : String := CSI ++ pyStr n ++ "M"

/-- Source `erase_in_display` (`root.py` line 325).  The Python signature
annotates the parameter as `Literal[0, 1, 2]`, but that annotation is a
static-typing hint only: at run time the function accepts any integer and
performs no validation, which this embedding reflects. -/
def erase_in_display (n : Int) : String := CSI ++ pyStr n ++ "J"

/-- Source `erase_in_line` (`root.py` line 335).  Same remark about the
`Literal[0, 1, 2]` annotation as for `erase_in_display`. -/
def erase_in_line (n : Int) : String := CSI ++ pyStr n ++ "K"

/-- Source `default` (`root.py` line 345): SGR reset. -/
def default : String := CSI ++ "0m"

/-- Spec version of `erase_in_line` for comparison with the source: the spec
demands that mode selectors outside the closed set `{0, 1, 2}` signal an
invalid-argument error rather than return a string, which we render as
`Option.none`. -/
def erase_in_line_specced (n : Int) : Option String :=
  if n = 0 ∨ n = 1 ∨ n = 2 then some (CSI ++ pyStr n ++ "K") else none

/-- Spec version of `erase_in_display`, analogous to `erase_in_line_specced`. -/
def erase_in_display_specced (n : Int) : Option String :=
  if n = 0 ∨ n = 1 ∨ n = 2 then some (CSI ++ pyStr n ++ "J") else none

end Ansi

namespace Ansi

theorem natDigitsAux_zero (fuel : Nat) : natDigitsAux fuel 0 = [] := by
  cases fuel <;> simp [natDigitsAux]

theorem natDigitsAux_head : ∀ (fuel n : Nat), 0 < n → n ≤ fuel →
    ∃ c cs, natDigitsAux fuel n = c :: cs ∧ c ≠ '0' ∧ c ≠ '-' := by
  intro fuel
  induction fuel with
  | zero => intro n hn hf; omega
  | succ fuel ih =>
    intro n hn hf
    rw [natDigitsAux, if_neg (Nat.pos_iff_ne_zero.mp hn)]
    by_cases h10 : n / 10 = 0
    · rw [h10, natDigitsAux_zero]
      have hlt : n < 10 := by omega
      refine ⟨Char.ofNat (48 + n % 10), [], rfl, ?_, ?_⟩ <;>
        (interval_cases n <;> decide)
    · have hpos : 0 < n / 10 := Nat.pos_of_ne_zero h10
      have hle : n / 10 ≤ fuel := by omega
      obtain ⟨c, cs, heq, hc0, hcm⟩ := ih (n / 10) hpos hle
      exact ⟨c, cs ++ [Char.ofNat (48 + n % 10)], by rw [heq]; rfl, hc0, hcm⟩

theorem pyStr_head_pos (i : Int) (h : 0 < i) :
    ∃ c cs, (pyStr i).data = c :: cs ∧ c ≠ '0' ∧ c ≠ '-' := by
  have hneg : ¬ i < 0 := by omega
  have htn : 0 < i.toNat := by omega
  rw [pyStr, if_neg hneg, natStr, if_neg (Nat.pos_iff_ne_zero.mp htn)]
  obtain ⟨c, cs, heq, hc0, hcm⟩ := natDigitsAux_head i.toNat i.toNat htn le_rfl
  exact ⟨c, cs, by rw [heq], hc0, hcm⟩

theorem str_append_assoc (a b c : String) : a ++ b ++ c = a ++ (b ++ c) := by
  cases a with
  | mk la =>
  cases b with
  | mk lb =>
  cases c with
  | mk lc =>
  show String.mk (la ++ lb ++ lc) = String.mk (la ++ (lb ++ lc))
  rw [List.append_assoc]

theorem csi_prefix3 (a b : String) : ∃ r, CSI ++ a ++ b = "\x1b[" ++ r :=
  ⟨a ++ b, str_append_assoc CSI a b⟩

theorem csi_prefix5 (a b c d : String) :
    ∃ r, CSI ++ a ++ b ++ c ++ d = "\x1b[" ++ r := by
  refine ⟨a ++ (b ++ (c ++ d)), ?_⟩
  show CSI ++ a ++ b ++ c ++ d = CSI ++ (a ++ (b ++ (c ++ d)))
  rw [str_append_assoc, str_append_assoc, str_append_assoc]

end Ansi

namespace Ansi

/-- C1: the claim states that `cursor_hvp(y, x)` returns
`"\x1b[" ++ y ++ ";" ++ x ++ "f"`, ending with the documented HVP terminator
byte `f`.  The source instead terminates the sequence with the byte `m`: in
general it builds `CSI ++ str y ++ ";" ++ str x ++ "m"`, and at the failing
input `y = 1, x = 1` it yields `"\x1b[1;1m"`, not `"\x1b[1;1f"` — so it does
not merely differ from `cursor_pos` in the terminator byte as documented.
This theorem records the code's actual behaviour at the failing input. -/
theorem C1_cursor_hvp_terminator_is_m :
    (∀ y x : Int, cursor_hvp y x = CSI ++ pyStr y ++ ";" ++ pyStr x ++ "m") ∧
    cursor_hvp 1 1 = "\x1b[1;1m" ∧
    cursor_hvp 1 1 ≠ "\x1b[1;1f" ∧
    cursor_pos 1 1 = "\x1b[1;1H" :=
  ⟨fun _ _ => rfl, by decide, by decide, by decide⟩

/-- C2 counterexample: the claim states that for `n` outside `{0, 1, 2}`,
`erase_in_line n` and `erase_in_display n` signal an invalid-argument error
and do not return a string.  At `n = 3` the code returns the strings
`"\x1b[3K"` and `"\x1b[3J"`, while the spec-mandated versions reject. -/
theorem C2_counterexample_no_runtime_rejection :
    erase_in_line 3 = "\x1b[3K" ∧ erase_in_display 3 = "\x1b[3J" ∧
    erase_in_line_specced 3 = none ∧ erase_in_display_specced 3 = none := by
  decide

/-- C2 (amended): `erase_in_line` and `erase_in_display` perform no runtime
validation — for every integer `n` they return `"\x1b[" ++ str n ++ "K"` and
`"\x1b[" ++ str n ++ "J"` respectively (the `{0, 1, 2}` restriction exists
only as a static `Literal` type annotation); on the valid modes `{0, 1, 2}`
the returned strings agree with the spec-mandated versions. -/
theorem C2_erase_mode_functions_total :
    ∀ n : Int,
      ((n = 0 ∨ n = 1 ∨ n = 2) →
        erase_in_line_specced n = some (erase_in_line n) ∧
        erase_in_display_specced n = some (erase_in_display n)) ∧
      erase_in_line n = CSI ++ pyStr n ++ "K" ∧
      erase_in_display n = CSI ++ pyStr n ++ "J" := by
  intro n
  refine ⟨fun h => ?_, rfl, rfl⟩
  rcases h with h | h | h <;> subst h <;> exact ⟨by decide, by decide⟩

/-- C2 witness: the amended theorem applied at the concrete valid mode 2. -/
theorem C2_witness_valid_mode :
    ((2 : Int) = 0 ∨ (2 : Int) = 1 ∨ (2 : Int) = 2) ∧
    (erase_in_line_specced 2 = some (erase_in_line 2) ∧
     erase_in_display_specced 2 = some (erase_in_display 2)) :=
  ⟨by decide, (C2_erase_mode_functions_total 2).1 (by decide)⟩

/-- C3: `cursos_next_line`, `cursor_prev_line` and `cursor_backward` all
return the identical string `"\x1b[" ++ str n ++ "D"` — at the byte level the
three operations are indistinguishable. -/
theorem C3_next_prev_backward_identical :
    ∀ n : Int,
      cursos_next_line n = CSI ++ pyStr n ++ "D" ∧
      cursor_prev_line n = cursos_next_line n ∧
      cursor_backward n = cursos_next_line n :=
  fun _ => ⟨rfl, rfl, rfl⟩

/-- C4: `cursor_pos` takes two optional integers `y` then `x`, both defaulting
to 1, and returns `"\x1b[" ++ str y ++ ";" ++ str x ++ "H"`; in particular
`cursor_pos 3 10 = "\x1b[3;10H"`, and the zero-argument call equals the call
with both defaults explicit. -/
theorem C4_cursor_pos_format :
    (∀ y x : Int, cursor_pos y x = CSI ++ pyStr y ++ ";" ++ pyStr x ++ "H") ∧
    (cursor_pos : String) = cursor_pos 1 1 ∧
    cursor_pos 3 10 = "\x1b[3;10H" :=
  ⟨fun _ _ => rfl, rfl, by decide⟩

/-- C5: each named cursor-shape function equals `decscusr` applied to its
assigned code 0 through 6 in order, and `decscusr n` is
`"\x1b[" ++ str n ++ " q"` with a space before the `q`; in particular
`blinking_block = "\x1b[1 q"` and `steady_bar = "\x1b[6 q"`. -/
theorem C5_cursor_shape_mapping :
    user_shape = decscusr 0 ∧ blinking_block = decscusr 1 ∧
    steady_block = decscusr 2 ∧ blinking_underline = decscusr 3 ∧
    steady_underline = decscusr 4 ∧ blinking_bar = decscusr 5 ∧
    steady_bar = decscusr 6 ∧
    (∀ n : Int, decscusr n = CSI ++ pyStr n ++ " q") ∧
    blinking_block = "\x1b[1 q" ∧ steady_bar = "\x1b[6 q" :=
  ⟨rfl, rfl, rfl, rfl, rfl, rfl, rfl, fun _ => rfl, by decide, by decide⟩

end Ansi

namespace Ansi

/-- C6: for every operation with a defaulted integer parameter, the call with
no explicit argument returns the same string as the call with the documented
default 1 explicit; in particular `cursor_up` with no argument equals
`cursor_up 1`, which is `"\x1b[1A"`. -/
theorem C6_default_parameters :
    (cursor_up : String) = cursor_up 1 ∧
    (cursor_down : String) = cursor_down 1 ∧
    (cursor_forward : String) = cursor_forward 1 ∧
    (cursor_backward : String) = cursor_backward 1 ∧
    (cursos_next_line : String) = cursos_next_line 1 ∧
    (cursor_prev_line : String) = cursor_prev_line 1 ∧
    (cursor_horz_abs : String) = cursor_horz_abs 1 ∧
    (cursor_vert_abs : String) = cursor_vert_abs 1 ∧
    (cursor_pos : String) = cursor_pos 1 1 ∧
    (cursor_hvp : String) = cursor_hvp 1 1 ∧
    (scroll_up : String) = scroll_up 1 ∧
    (scroll_down : String) = scroll_down 1 ∧
    (insert_character : String) = insert_character 1 ∧
    (delete_character : String) = delete_character 1 ∧
    (erase_character : String) = erase_character 1 ∧
    (insert_line : String) = insert_line 1 ∧
    (delete_line : String) = delete_line 1 ∧
    cursor_up 1 = "\x1b[1A" :=
  ⟨rfl, rfl, rfl, rfl, rfl, rfl, rfl, rfl, rfl, rfl, rfl, rfl, rfl, rfl, rfl,
   rfl, rfl, by decide⟩

/-- C7: every integer-parameterized operation places the decimal rendering of
its parameter verbatim between its fixed prefix and terminator; the rendering
of a positive parameter starts with neither a leading zero nor a sign; no
range validation is performed, so 0 and negative parameters still yield the
well-formed prefix-rendering-terminator shape; and
`cursor_forward 12 = "\x1b[12C"`. -/
theorem C7_decimal_rendering :
    ∀ n : Int,
      (0 < n → ∃ c cs, (pyStr n).data = c :: cs ∧ c ≠ '0' ∧ c ≠ '-') ∧
      cursor_up n = CSI ++ pyStr n ++ "A" ∧
      cursor_down n = CSI ++ pyStr n ++ "B" ∧
      cursor_forward n = CSI ++ pyStr n ++ "C" ∧
      cursor_backward n = CSI ++ pyStr n ++ "D" ∧
      cursos_next_line n = CSI ++ pyStr n ++ "D" ∧
      cursor_prev_line n = CSI ++ pyStr n ++ "D" ∧
      cursor_horz_abs n = CSI ++ pyStr n ++ "G" ∧
      cursor_vert_abs n = CSI ++ pyStr n ++ "d" ∧
      scroll_up n = CSI ++ pyStr n ++ "S" ∧
      scroll_down n = CSI ++ pyStr n ++ "T" ∧
      insert_character n = CSI ++ pyStr n ++ "@" ∧
      delete_character n = CSI ++ pyStr n ++ "P" ∧
      erase_character n = CSI ++ pyStr n ++ "X" ∧
      insert_line n = CSI ++ pyStr n ++ "L" ∧
      delete_line n = CSI ++ pyStr n ++ "M" ∧
      decscusr n = CSI ++ pyStr n ++ " q" ∧
      erase_in_display n = CSI ++ pyStr n ++ "J" ∧
      erase_in_line n = CSI ++ pyStr n ++ "K" ∧
      (∀ y x : Int,
        cursor_pos y x = CSI ++ pyStr y ++ ";" ++ pyStr x ++ "H" ∧
        cursor_hvp y x = CSI ++ pyStr y ++ ";" ++ pyStr x ++ "m") ∧
      cursor_forward 12 = "\x1b[12C" ∧
      cursor_forward 0 = "\x1b[0C" ∧
      cursor_forward (-3) = "\x1b[-3C" :=
  fun n =>
    ⟨pyStr_head_pos n, rfl, rfl, rfl, rfl, rfl, rfl, rfl, rfl, rfl, rfl, rfl,
     rfl, rfl, rfl, rfl, rfl, rfl, rfl, fun _ _ => ⟨rfl, rfl⟩,
     by decide, by decide, by decide⟩

/-- C7 witness: the rendering property applied at the concrete input 12. -/
theorem C7_witness_positive_rendering :
    (0 : Int) < 12 ∧
    (∃ c cs, (pyStr 12).data = c :: cs ∧ c ≠ '0' ∧ c ≠ '-') :=
  ⟨by decide, (C7_decimal_rendering 12).1 (by decide)⟩

end Ansi

namespace Ansi

/-- C8: for all arguments, every CSI-based operation returns a string that
begins with the two bytes `"\x1b["`, and each pure-ESC operation returns a
string of exactly two bytes: `reverse_index = "\x1bM"`,
`save_cursor = "\x1b7"` and `restore_cursor = "\x1b8"`. -/
theorem C8_prefix_composition :
    ∀ n y x : Int,
      (∃ r, cursor_up n = "\x1b[" ++ r) ∧
      (∃ r, cursor_down n = "\x1b[" ++ r) ∧
      (∃ r, cursor_forward n = "\x1b[" ++ r) ∧
      (∃ r, cursor_backward n = "\x1b[" ++ r) ∧
      (∃ r, cursos_next_line n = "\x1b[" ++ r) ∧
      (∃ r, cursor_prev_line n = "\x1b[" ++ r) ∧
      (∃ r, cursor_horz_abs n = "\x1b[" ++ r) ∧
      (∃ r, cursor_vert_abs n = "\x1b[" ++ r) ∧
      (∃ r, cursor_pos y x = "\x1b[" ++ r) ∧
      (∃ r, cursor_hvp y x = "\x1b[" ++ r) ∧
      (∃ r, blink_on = "\x1b[" ++ r) ∧
      (∃ r, blink_off = "\x1b[" ++ r) ∧
      (∃ r, show_cursor = "\x1b[" ++ r) ∧
      (∃ r, hide_cursor = "\x1b[" ++ r) ∧
      (∃ r, decscusr n = "\x1b[" ++ r) ∧
      (∃ r, user_shape = "\x1b[" ++ r) ∧
      (∃ r, blinking_block = "\x1b[" ++ r) ∧
      (∃ r, steady_block = "\x1b[" ++ r) ∧
      (∃ r, blinking_underline = "\x1b[" ++ r) ∧
      (∃ r, steady_underline = "\x1b[" ++ r) ∧
      (∃ r, blinking_bar = "\x1b[" ++ r) ∧
      (∃ r, steady_bar = "\x1b[" ++ r) ∧
      (∃ r, scroll_up n = "\x1b[" ++ r) ∧
      (∃ r, scroll_down n = "\x1b[" ++ r) ∧
      (∃ r, insert_character n = "\x1b[" ++ r) ∧
      (∃ r, delete_character n = "\x1b[" ++ r) ∧
      (∃ r, erase_character n = "\x1b[" ++ r) ∧
      (∃ r, insert_line n = "\x1b[" ++ r) ∧
      (∃ r, delete_line n = "\x1b[" ++ r) ∧
      (∃ r, erase_in_display n = "\x1b[" ++ r) ∧
      (∃ r, erase_in_line n = "\x1b[" ++ r) ∧
      (∃ r, Ansi.default = "\x1b[" ++ r) ∧
      reverse_index = "\x1bM" ∧ reverse_index.length = 2 ∧
      save_cursor = "\x1b7" ∧ save_cursor.length = 2 ∧
      restore_cursor = "\x1b8" ∧ restore_cursor.length = 2 :=
  fun n y x =>
    ⟨csi_prefix3 (pyStr n) "A", csi_prefix3 (pyStr n) "B",
     csi_prefix3 (pyStr n) "C", csi_prefix3 (pyStr n) "D",
     csi_prefix3 (pyStr n) "D", csi_prefix3 (pyStr n) "D",
     csi_prefix3 (pyStr n) "G", csi_prefix3 (pyStr n) "d",
     csi_prefix5 (pyStr y) ";" (pyStr x) "H",
     csi_prefix5 (pyStr y) ";" (pyStr x) "m",
     ⟨"?12h", rfl⟩, ⟨"?12l", rfl⟩, ⟨"?25h", rfl⟩, ⟨"?25l", rfl⟩,
     csi_prefix3 (pyStr n) " q",
     csi_prefix3 (pyStr 0) " q", csi_prefix3 (pyStr 1) " q",
     csi_prefix3 (pyStr 2) " q", csi_prefix3 (pyStr 3) " q",
     csi_prefix3 (pyStr 4) " q", csi_prefix3 (pyStr 5) " q",
     csi_prefix3 (pyStr 6) " q",
     csi_prefix3 (pyStr n) "S", csi_prefix3 (pyStr n) "T",
     csi_prefix3 (pyStr n) "@", csi_prefix3 (pyStr n) "P",
     csi_prefix3 (pyStr n) "X", csi_prefix3 (pyStr n) "L",
     csi_prefix3 (pyStr n) "M", csi_prefix3 (pyStr n) "J",
     csi_prefix3 (pyStr n) "K", ⟨"0m", rfl⟩,
     rfl, rfl, rfl, rfl, rfl, rfl⟩

/-- C9: every encoder function is deterministic — its output is a function of
its arguments alone.  In the embedding every operation is a pure function of
its integer arguments and the fixed prefix constants, so equal arguments give
byte-identical output strings, and the no-argument operations are fixed
strings. -/
theorem C9_determinism :
    ∀ (a b u v s t : Int), a = b → u = v → s = t →
      cursor_up a = cursor_up b ∧
      cursor_down a = cursor_down b ∧
      cursor_forward a = cursor_forward b ∧
      cursor_backward a = cursor_backward b ∧
      cursos_next_line a = cursos_next_line b ∧
      cursor_prev_line a = cursor_prev_line b ∧
      cursor_horz_abs a = cursor_horz_abs b ∧
      cursor_vert_abs a = cursor_vert_abs b ∧
      cursor_pos u s = cursor_pos v t ∧
      cursor_hvp u s = cursor_hvp v t ∧
      decscusr a = decscusr b ∧
      scroll_up a = scroll_up b ∧
      scroll_down a = scroll_down b ∧
      insert_character a = insert_character b ∧
      delete_character a = delete_character b ∧
      erase_character a = erase_character b ∧
      insert_line a = insert_line b ∧
      delete_line a = delete_line b ∧
      erase_in_display a = erase_in_display b ∧
      erase_in_line a = erase_in_line b ∧
      reverse_index = reverse_index ∧
      save_cursor = save_cursor ∧
      restore_cursor = restore_cursor := by
  intro a b u v s t hab huv hst
  subst hab; subst huv; subst hst
  exact ⟨rfl, rfl, rfl, rfl, rfl, rfl, rfl, rfl, rfl, rfl, rfl, rfl, rfl,
         rfl, rfl, rfl, rfl, rfl, rfl, rfl, rfl, rfl, rfl⟩

/-- C9 witness: determinism applied at the concrete arguments 5, 3 and 10. -/
theorem C9_witness_concrete :
    (5 : Int) = 5 ∧ (3 : Int) = 3 ∧ (10 : Int) = 10 ∧
    cursor_up 5 = cursor_up 5 :=
  ⟨rfl, rfl, rfl, (C9_determinism 5 5 3 3 10 10 rfl rfl rfl).1⟩

/-- C10: `decscusr` is total over the integers with no range check — for every
integer `n`, also outside `{0, ..., 6}`, it returns
`"\x1b[" ++ str n ++ " q"` rather than signalling an error; in particular
`decscusr 7 = "\x1b[7 q"`, `decscusr 100 = "\x1b[100 q"` and
`decscusr (-1) = "\x1b[-1 q"`. -/
theorem C10_decscusr_total :
    (∀ n : Int, decscusr n = CSI ++ pyStr n ++ " q") ∧
    decscusr 7 = "\x1b[7 q" ∧ decscusr 100 = "\x1b[100 q" ∧
    decscusr (-1) = "\x1b[-1 q" :=
  ⟨fun _ => rfl, by decide, by decide, by decide⟩

end Ansi
